import Mathlib

/-!
# Verification of the cloud output device core
  (plugins/UM3NetworkPrinting/src/Cloud/CloudOutputDevice.py)

Shallow embedding of the remote-cluster reconciliation and single-flight
upload pipeline of `CloudOutputDevice`, together with theorems checking the
natural-language specification against it.

Modelling conventions:
* Python object identity is made explicit: every locally allocated model
  object (`PrinterOutputModel`, `UM3PrintJobOutputModel`) carries an
  allocation token `objId`, drawn from a counter in the device state.
  "Mutated in place" is represented by a pure update function that keeps
  `objId`; "reallocated" would show up as a fresh token.
* Signal emissions, user-visible messages and outgoing API calls are
  collected in a list of `Effect`s, in program order.
* Python exceptions propagating out of a method are represented by an
  `Option PyError` in the result (`none` = normal return).
* `time()` is modelled with natural-number seconds; the interval check
  `time() - last < 2.0` becomes `now - last < 2` (truncated subtraction
  agrees with the Python comparison because a negative float difference is
  also `< 2`).
* External collaborators are parameters: the material catalog is a function
  `String → List MaterialGroup` (`getMaterialGroupListByGUID`, with the
  `or []` fallback built in), and the file-format environment `WriteEnv`
  carries what the file handler / global stack / writers supply.
* Logging calls (`Logger.log`) are side effects on an out-of-scope
  collaborator and are not recorded.
-/

-- Translation constants of class `T` (source lines 35-57); only the ones the
-- core logic branches on or surfaces are needed.
namespace T

def BLOCKED_UPLOADING : String :=
  "Sending new jobs (temporarily) blocked, still sending the previous print job."

def COULD_NOT_EXPORT : String := "Could not export print job."

def WRITE_FAILED : String := "There are no file formats available to write with!"

def SENDING_DATA_TEXT : String := "Sending data to remote cluster"

def SENDING_DATA_TITLE : String := "Sending data to remote cluster"

def ERROR : String := "Error"

def UPLOAD_ERROR : String := "Could not upload the data to the printer."

def UPLOAD_SUCCESS_TITLE : String := "Data Sent"

def UPLOAD_SUCCESS_TEXT : String := "Print job was successfully sent to the printer."

end T

/-- Material descriptor attached to a remote extruder configuration
(`CloudClusterPrinterConfigurationMaterial`). -/
structure CloudClusterPrinterConfigurationMaterial where
  guid : String
  color : String
  brand : String
  material : String
deriving DecidableEq

/-- One remote extruder configuration entry (print core + material). -/
structure CloudClusterPrinterConfiguration where
  print_core_id : String
  material : CloudClusterPrinterConfigurationMaterial
deriving DecidableEq

/-- Remote printer snapshot (`CloudClusterPrinter`), received per poll. -/
structure CloudClusterPrinter where
  uuid : String
  friendly_name : String
  machine_variant : String
  enabled : Bool
  status : String
  firmware_version : String
  configuration : List CloudClusterPrinterConfiguration
deriving DecidableEq

/-- Remote print-job snapshot (`CloudClusterPrintJob`). -/
structure CloudClusterPrintJob where
  uuid : String
  name : String
  printer_uuid : String
  owner : String
  status : String
  time_total : Nat
  time_elapsed : Nat
deriving DecidableEq

/-- Combined status payload (`CloudClusterStatus`). -/
structure CloudClusterStatus where
  printers : List CloudClusterPrinter
  print_jobs : List CloudClusterPrintJob
deriving DecidableEq

/-- Resolved material (`MaterialOutputModel`). -/
structure MaterialOutputModel where
  guid : String
  type : String
  brand : String
  color : String
  name : String
deriving DecidableEq

/-- Local extruder sub-object of a printer model (`ExtruderOutputModel`
as used here: hotend id and nullable active material). -/
structure ExtruderOutputModel where
  hotendID : String
  activeMaterial : Option MaterialOutputModel
deriving DecidableEq

/-- Freshly constructed extruder, before any update is applied. -/
def defaultExtruder : ExtruderOutputModel :=
  { hotendID := "", activeMaterial := none }

/-- Local printer entity (`PrinterOutputModel`). `objId` is the allocation
identity token (see module docstring); the extruder list is created by the
constructor with the requested count and only ever mutated element-wise. -/
structure PrinterOutputModel where
  objId : Nat
  key : String
  name : String
  type : String
  state : String
  firmwareVersion : String
  extruders : List ExtruderOutputModel
deriving DecidableEq

/-- Local print-job entity (`UM3PrintJobOutputModel`). The assigned printer
reference is stored as the printer entity's identity token. -/
structure UM3PrintJobOutputModel where
  objId : Nat
  key : String
  name : String
  owner : String
  state : String
  timeTotal : Nat
  timeElapsed : Nat
  assignedPrinter : Option Nat
deriving DecidableEq

/-- Persistent progress notification (`Message` with `progress`), kept in
`_progress_message`. Constructed with `progress = -1` (indeterminate). -/
structure ProgressMessage where
  text : String
  title : String
  progress : Int
deriving DecidableEq

/-- Authentication states used by `setAuthenticationState` (`AuthState`). -/
inductive AuthState where
  | NotAuthenticated
  | Authenticated
deriving DecidableEq

/-- Observable effects: Qt signal emissions, user-visible messages, and
outgoing API calls, in program order. -/
inductive Effect where
  | writeStarted
  | writeError
  | writeFinished
  | printersChangedSignal
  | printJobsChangedSignal
  | getClusterStatusCall
  | requestUploadCall (job_name : String) (file_size : Nat) (content_type : String)
  | uploadMeshCall
  | requestPrintCall (device_id : String) (job_id : String)
  | showMessage (text : String) (title : String)
  | showProgressMessage (progress : Int)
  | hideProgressMessage
deriving DecidableEq

/-- Mutable state of one `CloudOutputDevice` instance, restricted to the
fields the core logic reads or writes.  `nextObjId` is the allocation
counter backing the `objId` identity tokens. -/
structure DeviceState where
  printers : List PrinterOutputModel
  print_jobs : List UM3PrintJobOutputModel
  sending_job : Bool
  progress_message : Option ProgressMessage
  auth_state : AuthState
  last_response_time : Option Nat
  number_of_extruders : Nat
  nextObjId : Nat
deriving DecidableEq

/-- State right after `__init__` (lines 96-102): empty tables, gate clear,
no progress message, `_number_of_extruders = 2`. -/
def initialState : DeviceState :=
  { printers := []
    print_jobs := []
    sending_job := false
    progress_message := none
    auth_state := AuthState.NotAuthenticated
    last_response_time := none
    number_of_extruders := 2
    nextObjId := 0 }

/-- The poll rate limit `CHECK_CLUSTER_INTERVAL = 2.0` seconds (line 69). -/
def CHECK_CLUSTER_INTERVAL : Nat := 2

/-- Python-dict lookup for a comprehension `\x7bkey(x): x for x in xs\x7d`:
the LAST list element with the given key wins. -/
def dictLast {α : Type} (key : α → String) (xs : List α) (k : String) : Option α :=
  xs.reverse.find? (fun x => key x == k)

/-- Keys of a list in first-appearance order, each once.  Python iterates
sets in unspecified order; the claims are order-independent, so the
embedding fixes first-appearance order for determinism. -/
def firstAppearance (ks : List String) : List String :=
  ks.foldl (fun acc k => if k ∈ acc then acc else acc ++ [k]) []

/-- One material group from `getMaterialGroupListByGUID` (external catalog):
read-only flag, group name (the sort key), and the root container's
metadata/name used by `_createMaterialOutputModel`. -/
structure MaterialGroup where
  is_read_only : Bool
  name : String
  color_code : String
  brand : String
  material : String
  container_name : String
deriving DecidableEq

/-- The material catalog collaborator: guid to (possibly empty) group list,
covering `getMaterialGroupListByGUID(...) or []`. -/
def MaterialCatalog : Type := String → List MaterialGroup

/-- Head of `sorted(groups, key = name)` — the first element carrying the
minimal name (Python `sorted` is stable, so ties keep list order). -/
def firstMinByName : List MaterialGroup → Option MaterialGroup
  | [] => none
  | g :: gs => some (gs.foldl (fun best x => if x.name < best.name then x else best) g)

/-- `_createMaterialOutputModel` (lines 275-306): prefer read-only catalog
groups sorted by name, then non-read-only ones, then fall back to the
remote-supplied raw fields. -/
def createMaterialOutputModel (catalog : MaterialCatalog)
    (material : CloudClusterPrinterConfigurationMaterial) : MaterialOutputModel :=
  let material_group_list := catalog material.guid
  let read_only_material_group_list := material_group_list.filter (fun x => x.is_read_only)
  let non_read_only_material_group_list := material_group_list.filter (fun x => !x.is_read_only)
  let material_group : Option MaterialGroup :=
    if !read_only_material_group_list.isEmpty then
      firstMinByName read_only_material_group_list
    else if !non_read_only_material_group_list.isEmpty then
      firstMinByName non_read_only_material_group_list
    else
      none
  match material_group with
  | some g =>
      { guid := material.guid, type := g.material, brand := g.brand,
        color := g.color_code, name := g.container_name }
  | none =>
      { guid := material.guid, type := material.material, brand := material.brand,
        color := material.color,
        name := if material.material == "empty" then "Empty" else "Unknown" }

/-- Body of the per-extruder loop in `_updatePrinter` (lines 269-273):
always set the hotend id; resolve and set the active material only when
none is active or the active guid differs from the remote guid. -/
def updateExtruder (catalog : MaterialCatalog) (extruder : ExtruderOutputModel)
    (extruder_data : CloudClusterPrinterConfiguration) : ExtruderOutputModel :=
  let extruder := { extruder with hotendID := extruder_data.print_core_id }
  match extruder.activeMaterial with
  | none =>
      { extruder with
        activeMaterial := some (createMaterialOutputModel catalog extruder_data.material) }
  | some m =>
      if m.guid ≠ extruder_data.material.guid then
        { extruder with
          activeMaterial := some (createMaterialOutputModel catalog extruder_data.material) }
      else extruder

/-- The extruder loop of `_updatePrinter` (lines 262-273): iterate the
remote configuration by index, breaking on the first `IndexError` from the
entity's extruder array — i.e. update the common prefix of the two lists
and keep the entity's trailing extruders untouched. -/
def updateExtruders (catalog : MaterialCatalog) :
    List ExtruderOutputModel → List CloudClusterPrinterConfiguration →
    List ExtruderOutputModel
  | es, [] => es
  | [], _ :: _ => []
  | e :: es, c :: cs => updateExtruder catalog e c :: updateExtruders catalog es cs

/-- `_updatePrinter` (lines 256-273): in-place update of one printer entity
from its remote snapshot.  `objId` is untouched — the entity is mutated,
never reallocated. -/
def updatePrinter (catalog : MaterialCatalog) (model : PrinterOutputModel)
    (printer : CloudClusterPrinter) : PrinterOutputModel :=
  { model with
    key := printer.uuid
    name := printer.friendly_name
    type := printer.machine_variant
    state := if printer.enabled then printer.status else "disabled"
    extruders := updateExtruders catalog model.extruders printer.configuration }

/-- `_addPrinter` (lines 249-254): construct a `PrinterOutputModel` with
`len(printer.configuration)` extruders, append it, then run
`_updatePrinter` on it.  The fresh entity takes the next identity token. -/
def addPrinter (catalog : MaterialCatalog) (s : DeviceState)
    (printer : CloudClusterPrinter) : DeviceState :=
  let model : PrinterOutputModel :=
    { objId := s.nextObjId
      key := ""
      name := ""
      type := ""
      state := ""
      firmwareVersion := printer.firmware_version
      extruders := List.replicate printer.configuration.length defaultExtruder }
  { s with
    printers := s.printers ++ [updatePrinter catalog model printer]
    nextObjId := s.nextObjId + 1 }

/-- Keys present locally but gone from the remote snapshot
(`set(current).difference(remote)`, line 234). -/
def removedIds (current remote : Finset String) : Finset String := current \ remote

/-- Keys new in the remote snapshot (`set(remote).difference(current)`,
line 235). -/
def newIds (current remote : Finset String) : Finset String := remote \ current

/-- Keys present on both sides (`set(current).intersection(remote)`,
line 236). -/
def updatedIds (current remote : Finset String) : Finset String := current ∩ remote

/-- `_updatePrinters` (lines 230-247): diff the remote snapshot against the
local table by uuid, remove / add / update accordingly, and emit one
`printersChanged` signal for the whole batch.

The removal loop removes, per removed key, the object the old-table dict
holds for that key; under the table's unique-key invariant this equals
filtering out every entity whose key was removed.  The addition loop
iterates the (unordered) Python set in first-appearance order and fetches
each snapshot from the last-wins remote dict.  The update loop mutates, in
place, the existing entity whose key is in both sets. -/
def updatePrinters (catalog : MaterialCatalog) (s : DeviceState)
    (printers : List CloudClusterPrinter) : DeviceState × List Effect :=
  let remoteKeys : Finset String := (printers.map (fun p => p.uuid)).toFinset
  let currentKeys : Finset String := (s.printers.map (fun p => p.key)).toFinset
  let removed := removedIds currentKeys remoteKeys
  let added := newIds currentKeys remoteKeys
  let updated := updatedIds currentKeys remoteKeys
  let s1 := { s with
    printers := s.printers.filter (fun p => if p.key ∈ removed then false else true) }
  let addedOrder :=
    (firstAppearance (printers.map (fun p => p.uuid))).filter (fun k => if k ∈ added then true else false)
  let s2 := addedOrder.foldl (fun st k =>
    match dictLast (fun p => p.uuid) printers k with
    | some p => addPrinter catalog st p
    | none => st) s1
  let s3 := { s2 with
    printers := s2.printers.map (fun p =>
      if p.key ∈ updated then
        match dictLast (fun rp => rp.uuid) printers p.key with
        | some rp => updatePrinter catalog p rp
        | none => p
      else p) }
  (s3, [Effect.printersChangedSignal])

/-- `_addPrintJob` (lines 329-338): find the first local printer whose key
equals the job's printer uuid; if none exists the `StopIteration` is caught
and the method just logs and returns — no entity is created, nothing is
raised.  Otherwise append a fresh job entity assigned to that printer. -/
def addPrintJob (s : DeviceState) (job : CloudClusterPrintJob) : DeviceState :=
  match s.printers.find? (fun p => job.printer_uuid == p.key) with
  | none => s
  | some printer =>
      let model : UM3PrintJobOutputModel :=
        { objId := s.nextObjId
          key := job.uuid
          name := job.name
          owner := ""
          state := ""
          timeTotal := 0
          timeElapsed := 0
          assignedPrinter := some printer.objId }
      { s with
        print_jobs := s.print_jobs ++ [model]
        nextObjId := s.nextObjId + 1 }

/-- `_updateUM3PrintJobOutputModel` (lines 340-345): refresh only the four
scalar fields; every other field — identity, key, name, assigned printer —
is untouched. -/
def updateUM3PrintJobOutputModel (model : UM3PrintJobOutputModel)
    (job : CloudClusterPrintJob) : UM3PrintJobOutputModel :=
  { model with
    timeTotal := job.time_total
    timeElapsed := job.time_elapsed
    owner := job.owner
    state := job.status }

/-- `_updatePrintJobs` (lines 308-327): same diff-and-apply shape as the
printers, plus the notification policy of lines 324-327: emit
`printJobsChanged` only when the remote and previous-local key sets
differ. -/
def updatePrintJobs (s : DeviceState) (jobs : List CloudClusterPrintJob) :
    DeviceState × List Effect :=
  let remote_job_ids : Finset String := (jobs.map (fun j => j.uuid)).toFinset
  let current_job_ids : Finset String := (s.print_jobs.map (fun j => j.key)).toFinset
  let s1 := { s with
    print_jobs := s.print_jobs.filter (fun j =>
      if j.key ∈ removedIds current_job_ids remote_job_ids then false else true) }
  let addedOrder :=
    (firstAppearance (jobs.map (fun j => j.uuid))).filter (fun k =>
      if k ∈ newIds current_job_ids remote_job_ids then true else false)
  let s2 := addedOrder.foldl (fun st k =>
    match dictLast (fun j => j.uuid) jobs k with
    | some j => addPrintJob st j
    | none => st) s1
  let s3 := { s2 with
    print_jobs := s2.print_jobs.map (fun m =>
      if m.key ∈ updatedIds current_job_ids remote_job_ids then
        match dictLast (fun j => j.uuid) jobs m.key with
        | some j => updateUM3PrintJobOutputModel m j
        | none => m
      else m) }
  (s3, if remote_job_ids ≠ current_job_ids then [Effect.printJobsChangedSignal] else [])

/-- `_onStatusCallFinished` (lines 225-228): reconcile printers first, then
print jobs, threading the state in that order. -/
def onStatusCallFinished (catalog : MaterialCatalog) (s : DeviceState)
    (status : CloudClusterStatus) : DeviceState × List Effect :=
  let r1 := updatePrinters catalog s status.printers
  let r2 := updatePrintJobs r1.1 status.print_jobs
  (r2.1, r1.2 ++ r2.2)

/-- `_update` (lines 212-221), minus the base-class `super()._update()`
call (out of scope): rate-limit on `_last_response_time`, then branch on
the account's login state; only the logged-in branch issues the status
request. -/
def update (s : DeviceState) (now : Nat) (isLoggedIn : Bool) :
    DeviceState × List Effect :=
  if s.last_response_time.isSome ∧
      now - s.last_response_time.getD 0 < CHECK_CLUSTER_INTERVAL then
    (s, [])
  else if isLoggedIn then
    ({ s with auth_state := AuthState.Authenticated }, [Effect.getClusterStatusCall])
  else
    ({ s with auth_state := AuthState.NotAuthenticated }, [])

/-- Python `str.split(";")` via the character list (structural, so the
kernel can evaluate it); `"".split(";") == [""]`, never the empty list. -/
def pySplitSemicolons (s : String) : List String :=
  (s.data.splitOn ';').map String.mk

/-- Python `str.strip()`: drop leading and trailing whitespace. -/
def pyStrip (s : String) : String :=
  String.mk (((s.data.dropWhile Char.isWhitespace).reverse.dropWhile
    Char.isWhitespace).reverse)

/-- Python exceptions that can propagate out of `requestWrite`. -/
inductive PyError where
  | writeRequestFailed (msg : String)
  | keyError (k : String)
  | typeError
deriving DecidableEq

/-- Writer output mode (`FileWriter.OutputMode`). -/
inductive OutputMode where
  | TextMode
  | BinaryMode
deriving DecidableEq

/-- One supported file format, as the dictionaries used by
`_determineFileFormat` (mime type, output mode, extension). -/
structure FileFormat where
  mime_type : String
  mode : OutputMode
  extension : String
deriving DecidableEq

/-- Environment supplied by the external collaborators of `requestWrite`:
the file handler's writable formats, the global stack's `file_formats`
metadata (`none` = no global stack), whether the firmware version is at
least 4.4 (UFP support), which mime types have a writer, and the payload
the chosen writer serializes for this call. -/
structure WriteEnv where
  supported_write_formats : List FileFormat
  global_stack_file_formats : Option String
  firmware_at_least_4_4 : Bool
  writer_exists : String → Bool
  serialized : String

/-- Look every machine mime type up in the format-by-mimetype dict
(line 161); like the Python list comprehension, the first missing key
raises `KeyError`. -/
def lookupFormats (file_formats : List FileFormat) :
    List String → Except PyError (List FileFormat)
  | [] => Except.ok []
  | m :: ms =>
      match dictLast (fun f => f.mime_type) file_formats m with
      | none => Except.error (PyError.keyError m)
      | some f =>
          match lookupFormats file_formats ms with
          | Except.error e => Except.error e
          | Except.ok fs => Except.ok (f :: fs)

/-- `_determineFileFormat` (lines 138-166).  `Except.ok none` is the
missing-global-stack early return; `Except.error` is a raised exception:
`KeyError` from the mimetype lookup, or `WriteRequestFailedError` when the
machine list is empty (unreachable after `split`, which never yields an
empty list, but kept as in the source). -/
def determineFileFormat (env : WriteEnv) : Except PyError (Option FileFormat) :=
  let file_formats := env.supported_write_formats
  match env.global_stack_file_formats with
  | none => Except.ok none
  | some meta =>
      let machine_file_formats := (pySplitSemicolons meta).map pyStrip
      let machine_file_formats :=
        if "application/x-ufp" ∉ machine_file_formats ∧ env.firmware_at_least_4_4 then
          "application/x-ufp" :: machine_file_formats
        else machine_file_formats
      match lookupFormats file_formats machine_file_formats with
      | Except.error e => Except.error e
      | Except.ok [] => Except.error (PyError.writeRequestFailed T.WRITE_FAILED)
      | Except.ok (f :: _) => Except.ok (some f)

/-- `_updateUploadProgress` (lines 364-375): lazily create the persistent
progress message (indeterminate, `progress = -1`), then set the concrete
progress and show it. -/
def updateUploadProgress (s : DeviceState) (progress : Int) :
    DeviceState × List Effect :=
  let message :=
    match s.progress_message with
    | none =>
        { text := T.SENDING_DATA_TEXT, title := T.SENDING_DATA_TITLE,
          progress := -1 : ProgressMessage }
    | some m => m
  ({ s with progress_message := some { message with progress := progress } },
    [Effect.showProgressMessage progress])

/-- `_resetUploadProgress` (lines 377-380): hide and drop the progress
message when one exists. -/
def resetUploadProgress (s : DeviceState) : DeviceState × List Effect :=
  match s.progress_message with
  | some _ => ({ s with progress_message := none }, [Effect.hideProgressMessage])
  | none => (s, [])

/-- `_onUploadError` (lines 382-393): dismiss the progress notification,
show an error message only when one was supplied, clear the sending-job
gate unconditionally, and emit `writeError`. -/
def onUploadError (s : DeviceState) (message : Option String) :
    DeviceState × List Effect :=
  let r1 := resetUploadProgress s
  let shown :=
    match message with
    | some m => [Effect.showMessage m T.ERROR]
    | none => []
  ({ r1.1 with sending_job := false }, r1.2 ++ shown ++ [Effect.writeError])

/-- `_onUploadSuccess` (lines 396-407): dismiss the progress notification,
show the success message, clear the gate, emit `writeFinished`. -/
def onUploadSuccess (s : DeviceState) : DeviceState × List Effect :=
  let r1 := resetUploadProgress s
  ({ r1.1 with sending_job := false },
    r1.2 ++ [Effect.showMessage T.UPLOAD_SUCCESS_TEXT T.UPLOAD_SUCCESS_TITLE,
      Effect.writeFinished])

/-- `_sendPrintJob` (lines 347-355): build the upload request from the file
name, payload length and content type, and issue the asynchronous
`requestUpload` API call. -/
def sendPrintJob (s : DeviceState) (file_name : String) (content_type : String)
    (mesh : String) : DeviceState × List Effect :=
  (s, [Effect.requestUploadCall file_name mesh.length content_type])

/-- Result of one `requestWrite` call: the post state, the effects in
order, and the exception that escaped the method, if any. -/
structure WriteResult where
  state : DeviceState
  effects : List Effect
  raised : Option PyError
deriving DecidableEq

/-- `requestWrite` (lines 113-135).  If the gate is set, the attempt is
routed through `_onUploadError` with the blocked message.  Otherwise the
gate is set and `writeStarted` emitted, then the file format is determined
(its exceptions propagate with the gate left set); a `None` format makes
`_determineWriter` subscript `None` (`TypeError`); a missing writer goes
through `_onUploadError`; otherwise the job is serialized and handed to
`_sendPrintJob`. -/
def requestWrite (env : WriteEnv) (s : DeviceState) (file_name : String) :
    WriteResult :=
  if s.sending_job then
    let r := onUploadError s (some T.BLOCKED_UPLOADING)
    { state := r.1, effects := r.2, raised := none }
  else
    let s1 := { s with sending_job := true }
    match determineFileFormat env with
    | Except.error e =>
        { state := s1, effects := [Effect.writeStarted], raised := some e }
    | Except.ok none =>
        { state := s1, effects := [Effect.writeStarted], raised := some PyError.typeError }
    | Except.ok (some fmt) =>
        if env.writer_exists fmt.mime_type then
          let r := sendPrintJob s1 (file_name ++ "." ++ fmt.extension) fmt.mime_type
            env.serialized
          { state := r.1, effects := Effect.writeStarted :: r.2, raised := none }
        else
          let r := onUploadError s1 (some T.COULD_NOT_EXPORT)
          { state := r.1, effects := Effect.writeStarted :: r.2, raised := none }

/-! ### Concrete instances used by witnesses and counterexamples -/

/-- Empty material catalog: no guid has a catalog entry. -/
def catalog0 : MaterialCatalog := fun _ => []

/-- A concrete remote material descriptor. -/
def material0 : CloudClusterPrinterConfigurationMaterial :=
  { guid := "g1", color := "red", brand := "B", material := "pla" }

/-- A concrete extruder configuration entry. -/
def cfg0 : CloudClusterPrinterConfiguration :=
  { print_core_id := "AA 0.4", material := material0 }

/-- A concrete remote printer snapshot with two extruder configurations. -/
def remotePrinter1 : CloudClusterPrinter :=
  { uuid := "P1", friendly_name := "printer one", machine_variant := "UM3",
    enabled := true, status := "idle", firmware_version := "4.3",
    configuration := [cfg0, cfg0] }

/-- The same printer with a single-entry configuration list. -/
def printerOneCfg : CloudClusterPrinter :=
  { remotePrinter1 with configuration := [cfg0] }

/-- A local printer entity for `remotePrinter1`, allocation token 7. -/
def localPrinter1 : PrinterOutputModel :=
  { objId := 7, key := "P1", name := "printer one", type := "UM3",
    state := "idle", firmwareVersion := "4.3",
    extruders := [defaultExtruder, defaultExtruder] }

/-- A device state that already tracks `localPrinter1`. -/
def stateWithPrinter1 : DeviceState :=
  { initialState with printers := [localPrinter1], nextObjId := 8 }

/-- A remote job referencing printer uuid `P3`, absent from
`stateWithPrinter1`. -/
def jobForP3 : CloudClusterPrintJob :=
  { uuid := "J1", name := "job", printer_uuid := "P3", owner := "me",
    status := "queued", time_total := 100, time_elapsed := 3 }

/-- A device state whose last successful fetch was at second 5. -/
def stateRecentFetch : DeviceState :=
  { initialState with last_response_time := some 5 }

/-- An empty cluster status payload. -/
def status0 : CloudClusterStatus := { printers := [], print_jobs := [] }

/-- A writable gcode file format. -/
def gcodeFormat : FileFormat :=
  { mime_type := "text/x-gcode", mode := OutputMode.TextMode, extension := "gcode" }

/-- A healthy write environment: gcode supported on both sides, writer
available. -/
def envBlocked : WriteEnv :=
  { supported_write_formats := [gcodeFormat]
    global_stack_file_formats := some "text/x-gcode"
    firmware_at_least_4_4 := false
    writer_exists := fun _ => true
    serialized := "G0 X0" }

/-- A write environment with no writable format: the application supports
no file types, while the machine asks for gcode. -/
def envNoFormats : WriteEnv :=
  { supported_write_formats := []
    global_stack_file_formats := some "text/x-gcode"
    firmware_at_least_4_4 := false
    writer_exists := fun _ => false
    serialized := "" }

/-- A device state in the middle of an upload: gate set, progress message
showing at 42 percent. -/
def stateSending : DeviceState :=
  { initialState with
    sending_job := true
    progress_message := some
      { text := T.SENDING_DATA_TEXT, title := T.SENDING_DATA_TITLE, progress := 42 } }

/-! ### Helper lemmas -/

/-- The extruder loop equals: update the common prefix pairwise, keep the
entity's trailing extruders as they were. -/
lemma updateExtruders_eq_zipWith (catalog : MaterialCatalog)
    (es : List ExtruderOutputModel) (cs : List CloudClusterPrinterConfiguration) :
    updateExtruders catalog es cs
      = List.zipWith (updateExtruder catalog) es cs ++ es.drop cs.length := by
  induction cs generalizing es with
  | nil => cases es <;> simp [updateExtruders]
  | cons c cs ih =>
      cases es with
      | nil => simp [updateExtruders]
      | cons e es => simp [updateExtruders, ih]

/-- The extruder loop never changes the length of the extruder array. -/
lemma updateExtruders_length (catalog : MaterialCatalog)
    (es : List ExtruderOutputModel) (cs : List CloudClusterPrinterConfiguration) :
    (updateExtruders catalog es cs).length = es.length := by
  rw [updateExtruders_eq_zipWith]
  simp
  omega

/-- A successful `dictLast` lookup exists whenever some element carries the
key, and the found element carries the key. -/
lemma dictLast_of_mem {α : Type} (key : α → String) (xs : List α) (k : String)
    (h : ∃ x ∈ xs, key x = k) :
    ∃ x, dictLast key xs k = some x ∧ key x = k := by
  obtain ⟨x, hx, hxk⟩ := h
  have hsome : (xs.reverse.find? (fun x => key x == k)).isSome := by
    rw [List.find?_isSome]
    exact ⟨x, List.mem_reverse.mpr hx, by simp [hxk]⟩
  obtain ⟨y, hy⟩ := Option.isSome_iff_exists.mp hsome
  refine ⟨y, hy, ?_⟩
  have := List.find?_some hy
  simpa using this

/-- The addition loop of `_updatePrinters` only appends: existing printer
entities survive it untouched. -/
lemma mem_printers_foldl_addPrinter (catalog : MaterialCatalog)
    (printers : List CloudClusterPrinter) (L : List String) (st : DeviceState)
    (p : PrinterOutputModel) (hp : p ∈ st.printers) :
    p ∈ (L.foldl (fun st k =>
      match dictLast (fun q => q.uuid) printers k with
      | some q => addPrinter catalog st q
      | none => st) st).printers := by
  induction L generalizing st with
  | nil => exact hp
  | cons k L ih =>
      rw [List.foldl_cons]
      apply ih
      cases hdl : dictLast (fun q => q.uuid) printers k with
      | none => simpa [hdl] using hp
      | some q =>
          simp only [hdl, addPrinter]
          exact List.mem_append_left _ hp

/-! ### Claim theorems -/

/-- C3: the reconciliation computes `removed` = local keys not in remote,
`added` = remote keys not in local, `updated` = keys in both; the three
sets are pairwise disjoint and their union is the union of both key sets,
so every key lands in exactly one of them. -/
theorem diff_sets_partition (current remote : Finset String) :
    (removedIds current remote ∪ newIds current remote ∪ updatedIds current remote
      = current ∪ remote) ∧
    Disjoint (removedIds current remote) (newIds current remote) ∧
    Disjoint (removedIds current remote) (updatedIds current remote) ∧
    Disjoint (newIds current remote) (updatedIds current remote) := by
  refine ⟨?_, ?_, ?_, ?_⟩
  · ext x
    simp only [removedIds, newIds, updatedIds, Finset.mem_union, Finset.mem_sdiff,
      Finset.mem_inter]
    tauto
  · rw [Finset.disjoint_left]
    intro a ha hb
    simp only [removedIds, newIds, Finset.mem_sdiff] at ha hb
    tauto
  · rw [Finset.disjoint_left]
    intro a ha hb
    simp only [removedIds, updatedIds, Finset.mem_sdiff, Finset.mem_inter] at ha hb
    tauto
  · rw [Finset.disjoint_left]
    intro a ha hb
    simp only [newIds, updatedIds, Finset.mem_sdiff, Finset.mem_inter] at ha hb
    tauto

/-- C7: one job reconciliation pass emits the `printJobsChanged` signal if
and only if the remote snapshot's key set differs from the previous local
key set; pure field updates emit nothing. -/
theorem printJobsChanged_iff_key_sets_differ (s : DeviceState)
    (jobs : List CloudClusterPrintJob) :
    Effect.printJobsChangedSignal ∈ (updatePrintJobs s jobs).2 ↔
      (jobs.map (fun j => j.uuid)).toFinset
        ≠ (s.print_jobs.map (fun j => j.key)).toFinset := by
  by_cases h :
      (jobs.map (fun j => j.uuid)).toFinset = (s.print_jobs.map (fun j => j.key)).toFinset
  · simp [updatePrintJobs, h]
  · simp [updatePrintJobs, h]

/-- C8: updating an existing job entity refreshes exactly the four scalar
fields (total time, elapsed time, owner, status) and leaves its identity,
key, name and assigned-printer reference untouched. -/
theorem job_update_scalars_only (model : UM3PrintJobOutputModel)
    (job : CloudClusterPrintJob) :
    (updateUM3PrintJobOutputModel model job).timeTotal = job.time_total ∧
    (updateUM3PrintJobOutputModel model job).timeElapsed = job.time_elapsed ∧
    (updateUM3PrintJobOutputModel model job).owner = job.owner ∧
    (updateUM3PrintJobOutputModel model job).state = job.status ∧
    (updateUM3PrintJobOutputModel model job).objId = model.objId ∧
    (updateUM3PrintJobOutputModel model job).key = model.key ∧
    (updateUM3PrintJobOutputModel model job).name = model.name ∧
    (updateUM3PrintJobOutputModel model job).assignedPrinter = model.assignedPrinter :=
  ⟨rfl, rfl, rfl, rfl, rfl, rfl, rfl, rfl⟩

/-- C5: a printer update sets the state to the `"disabled"` sentinel
exactly when the remote enabled flag is false; the extruder loop stops at
the shorter of the entity's extruder array and the remote configuration,
leaving trailing extruders untouched and raising nothing; inside the loop
the hotend id is always set and the active material is resolved and set
exactly when none is active or the active guid differs from the remote
guid. -/
theorem printer_update_rules (catalog : MaterialCatalog) :
    (∀ (model : PrinterOutputModel) (printer : CloudClusterPrinter),
      (updatePrinter catalog model printer).state
        = if printer.enabled then printer.status else "disabled") ∧
    (∀ (model : PrinterOutputModel) (printer : CloudClusterPrinter),
      (updatePrinter catalog model printer).extruders
        = List.zipWith (updateExtruder catalog) model.extruders printer.configuration
          ++ model.extruders.drop printer.configuration.length) ∧
    (∀ (e : ExtruderOutputModel) (c : CloudClusterPrinterConfiguration),
      (updateExtruder catalog e c).hotendID = c.print_core_id) ∧
    (∀ (e : ExtruderOutputModel) (c : CloudClusterPrinterConfiguration),
      (e.activeMaterial = none ∨
        ∃ m, e.activeMaterial = some m ∧ m.guid ≠ c.material.guid) →
      (updateExtruder catalog e c).activeMaterial
        = some (createMaterialOutputModel catalog c.material)) ∧
    (∀ (e : ExtruderOutputModel) (c : CloudClusterPrinterConfiguration)
      (m : MaterialOutputModel), e.activeMaterial = some m →
      m.guid = c.material.guid →
      (updateExtruder catalog e c).activeMaterial = e.activeMaterial) := by
  refine ⟨fun model printer => rfl, ?_, ?_, ?_, ?_⟩
  · intro model printer
    simp [updatePrinter, updateExtruders_eq_zipWith]
  · intro e c
    unfold updateExtruder
    cases h : e.activeMaterial with
    | none => simp [h]
    | some m =>
        simp only [h]
        split <;> rfl
  · intro e c hcond
    unfold updateExtruder
    cases h : e.activeMaterial with
    | none => simp [h]
    | some m =>
        rcases hcond with hnone | ⟨m2, hm2, hne⟩
        · rw [h] at hnone; cases hnone
        · rw [h] at hm2
          cases hm2
          simp [h, hne]
  · intro e c m hm heq
    unfold updateExtruder
    simp [hm, heq]

/-- C5 witness: on a fresh extruder (no active material) the material is
resolved and set. -/
theorem printer_update_rules_witness :
    (updateExtruder catalog0 defaultExtruder cfg0).activeMaterial
      = some (createMaterialOutputModel catalog0 cfg0.material) :=
  (printer_update_rules catalog0).2.2.2.1 defaultExtruder cfg0 (Or.inl rfl)

/-- C6: adding a remote job whose printer uuid matches no local printer is
skipped entirely — the device state (in particular the job table and the
allocation counter) is returned unchanged, and since the embedding is a
total function the caught `StopIteration` never escapes. -/
theorem addPrintJob_skips_unknown_printer (s : DeviceState)
    (job : CloudClusterPrintJob)
    (h : ∀ p ∈ s.printers, p.key ≠ job.printer_uuid) :
    addPrintJob s job = s := by
  have hfind : s.printers.find? (fun p => job.printer_uuid == p.key) = none := by
    rw [List.find?_eq_none]
    intro p hp
    simp only [beq_iff_eq]
    exact fun e => h p hp e.symm
  simp [addPrintJob, hfind]

/-- C6 witness: a job for printer `P3` against a table holding only `P1`
changes nothing. -/
theorem addPrintJob_skips_unknown_printer_witness :
    addPrintJob stateWithPrinter1 jobForP3 = stateWithPrinter1 :=
  addPrintJob_skips_unknown_printer stateWithPrinter1 jobForP3 (by decide)

/-- C9: the poll update returns immediately, changing nothing and calling
nothing, when a successful fetch happened within the minimum interval;
otherwise it sets the auth state according to the login check and issues
exactly one status request only when logged in; and the status callback
reconciles printers first and print jobs second, threading the state in
that order. -/
theorem poll_update_behavior (s : DeviceState) (now : Nat) (logged : Bool)
    (catalog : MaterialCatalog) (status : CloudClusterStatus) :
    ((∃ t, s.last_response_time = some t ∧ now - t < CHECK_CLUSTER_INTERVAL) →
      update s now logged = (s, [])) ∧
    ((¬ ∃ t, s.last_response_time = some t ∧ now - t < CHECK_CLUSTER_INTERVAL) →
      logged = false →
      update s now logged
        = ({ s with auth_state := AuthState.NotAuthenticated }, [])) ∧
    ((¬ ∃ t, s.last_response_time = some t ∧ now - t < CHECK_CLUSTER_INTERVAL) →
      logged = true →
      update s now logged
        = ({ s with auth_state := AuthState.Authenticated },
            [Effect.getClusterStatusCall])) ∧
    (onStatusCallFinished catalog s status
      = ((updatePrintJobs (updatePrinters catalog s status.printers).1
            status.print_jobs).1,
          (updatePrinters catalog s status.printers).2
            ++ (updatePrintJobs (updatePrinters catalog s status.printers).1
                  status.print_jobs).2)) := by
  have hc : (s.last_response_time.isSome = true ∧
        now - s.last_response_time.getD 0 < CHECK_CLUSTER_INTERVAL) ↔
      (∃ t, s.last_response_time = some t ∧ now - t < CHECK_CLUSTER_INTERVAL) := by
    cases h : s.last_response_time <;> simp [h]
  refine ⟨?_, ?_, ?_, rfl⟩
  · intro hex
    unfold update
    rw [if_pos (hc.mpr hex)]
  · intro hne hlog
    subst hlog
    unfold update
    rw [if_neg (fun hcon => hne (hc.mp hcon))]
    simp
  · intro hne hlog
    subst hlog
    unfold update
    rw [if_neg (fun hcon => hne (hc.mp hcon))]
    simp

/-- C9 witness: with the last response at second 5 and the clock at 6, the
poll is rate-limited and the call is a no-op. -/
theorem poll_update_behavior_witness :
    update stateRecentFetch 6 true = (stateRecentFetch, []) :=
  (poll_update_behavior stateRecentFetch 6 true catalog0 status0).1
    ⟨5, rfl, by decide⟩

/-- C10 counterexample: a remote snapshot with a single-entry configuration
creates a printer entity with one extruder, not the fixed count of 2
claimed — `_addPrinter` passes `len(printer.configuration)` to the
constructor and never consults `_number_of_extruders`. -/
theorem extruder_count_not_fixed_two :
    ¬ ∀ q ∈ (addPrinter catalog0 initialState printerOneCfg).printers,
      q.extruders.length = 2 := by decide

/-- C10 amended: a printer entity's extruder list is created once, at
construction, with count equal to the remote snapshot's configuration
length, and no later update ever resizes it. -/
theorem extruder_count_follows_configuration (catalog : MaterialCatalog)
    (s : DeviceState) (printer : CloudClusterPrinter)
    (model : PrinterOutputModel) (printer2 : CloudClusterPrinter) :
    (∃ m, (addPrinter catalog s printer).printers = s.printers ++ [m] ∧
      m.extruders.length = printer.configuration.length) ∧
    (updatePrinter catalog model printer2).extruders.length
      = model.extruders.length := by
  constructor
  · refine ⟨_, rfl, ?_⟩
    simp [updatePrinter, updateExtruders_length]
  · simp [updatePrinter, updateExtruders_length]

/-- C4: when a printer uuid already tracked locally appears again in the
remote snapshot, reconciliation mutates that entity in place — the result
contains the update of the very same entity (same identity token), never a
reallocated replacement, whatever the remote fields are. -/
theorem printer_identity_preserved (catalog : MaterialCatalog) (s : DeviceState)
    (printers : List CloudClusterPrinter) (p : PrinterOutputModel)
    (hp : p ∈ s.printers)
    (hk : p.key ∈ (printers.map (fun q => q.uuid)).toFinset) :
    ∃ rp, dictLast (fun q => q.uuid) printers p.key = some rp ∧
      updatePrinter catalog p rp ∈ (updatePrinters catalog s printers).1.printers ∧
      (updatePrinter catalog p rp).objId = p.objId := by
  have hex : ∃ x ∈ printers, x.uuid = p.key := by simpa using hk
  obtain ⟨rp, hrp, hrpk⟩ := dictLast_of_mem (fun q => q.uuid) printers p.key hex
  have hkey_current : p.key ∈ (s.printers.map (fun q => q.key)).toFinset :=
    List.mem_toFinset.mpr (List.mem_map_of_mem _ hp)
  have hnotrem : p.key ∉ removedIds ((s.printers.map (fun q => q.key)).toFinset)
      ((printers.map (fun q => q.uuid)).toFinset) := by
    simp only [removedIds, Finset.mem_sdiff, not_and, not_not]
    exact fun _ => hk
  have hupd : p.key ∈ updatedIds ((s.printers.map (fun q => q.key)).toFinset)
      ((printers.map (fun q => q.uuid)).toFinset) :=
    Finset.mem_inter.mpr ⟨hkey_current, hk⟩
  refine ⟨rp, hrp, ?_, rfl⟩
  simp only [updatePrinters]
  refine List.mem_map.mpr ⟨p, ?_, ?_⟩
  · apply mem_printers_foldl_addPrinter
    exact List.mem_filter.mpr ⟨hp, by simp [hnotrem]⟩
  · simp [hupd, hrp]

/-- C4 witness: re-reconciling `P1` updates the existing entity with token
7 in place. -/
theorem printer_identity_preserved_witness :
    ∃ rp, dictLast (fun q => q.uuid) [remotePrinter1] localPrinter1.key = some rp ∧
      updatePrinter catalog0 localPrinter1 rp
        ∈ (updatePrinters catalog0 stateWithPrinter1 [remotePrinter1]).1.printers ∧
      (updatePrinter catalog0 localPrinter1 rp).objId = localPrinter1.objId :=
  printer_identity_preserved catalog0 stateWithPrinter1 [remotePrinter1]
    localPrinter1 (by decide) (by decide)

/-- C1 divergence, evaluated: calling `requestWrite` while the gate is set
(progress message showing at 42) is rejected through `_onUploadError` with
the blocked message; no upload request is issued and no session exists,
but the shared error handler also hides the in-flight progress message and
clears `_sending_job` — the gate does NOT remain set for the job still in
flight. -/
theorem requestWrite_blocked_clears_gate :
    requestWrite envBlocked stateSending "job"
      = { state := { stateSending with sending_job := false, progress_message := none },
          effects := [Effect.hideProgressMessage,
            Effect.showMessage T.BLOCKED_UPLOADING T.ERROR, Effect.writeError],
          raised := none } := by decide

/-- C2 divergence, evaluated: when no writable file format exists (the
application offers none, the machine asks for gcode), `requestWrite` first
sets the gate and emits `writeStarted`, then the format lookup raises and
the exception escapes — `_onUploadError` never runs, so the gate is left
set and no error outcome (`writeError`) is surfaced at all. -/
theorem requestWrite_no_format_leaves_gate_set :
    requestWrite envNoFormats initialState "job"
      = { state := { initialState with sending_job := true },
          effects := [Effect.writeStarted],
          raised := some (PyError.keyError "text/x-gcode") } := by decide
